import Mathlib

/-!
# ESP32-CAM web server (`camera/src/main.cpp`): request handlers and server bootstrap

The handlers of `main.cpp` are sequences of calls into the camera driver, the
HTTP server and the Arduino core.  They are embedded as pure functions over an
explicit state `St` that records every external call, with its arguments and
its outcome, in a trace.  The outcomes are drawn from an environment `Env`:
the answer to the `i`-th call of each external function is arbitrary, so a
statement quantified over `Env` covers every sequence of outcomes.

Conventions of the embedding:

* a byte is a `Nat`; C memory is a `List byte`; a `(pointer, length)` argument
  pair is recorded as the byte string it denotes: `mem.take len` for a byte
  count, and for the `ssize_t` length of `httpd_resp_send` the body given by
  `resp_body`, where `HTTPD_RESP_USE_STRLEN` stands for the `strlen`;
* an array that is written to is a `char_array`, with its size and a mark for
  a store past its end;
* `esp_err_t` is `Int`, `ESP_OK = 0`, `ESP_FAIL = -1`;
* `while (true)` takes a bound on the number of iterations; the result
  `none` says that the loop is still running after that many iterations.
-/

namespace EspCam

/-! ## Basic types -/

abbrev byte := Nat

abbrev esp_err_t := Int

def ESP_OK : esp_err_t := 0

def ESP_FAIL : esp_err_t := -1

/-- The `#define LED_GPIO_NUM 4` of the flash LED. -/
def LED_GPIO_NUM : Nat := 4

/-- The fields of `camera_fb_t` (declared by the camera driver) that the handlers read: the
memory at `buf` and the length `len` (a `size_t`). -/
structure camera_fb_t where
  buf : List byte
  len : Nat
deriving DecidableEq

/-- The fields of `httpd_config_t` that `startCameraServer` reads or writes
(both `uint16_t`); every other field is passed on as `HTTPD_DEFAULT_CONFIG()`
left it. -/
structure httpd_config_t where
  server_port : Nat
  ctrl_port : Nat
deriving DecidableEq

/-- A server handle: `none` is `NULL`, `some i` is the instance created by the
`i`-th call of `httpd_start`. -/
abbrev httpd_handle_t := Option Nat

inductive http_method where
  | HTTP_GET
deriving DecidableEq

/-- The four handler functions of `main.cpp`, as values of a route table. -/
inductive Handler where
  | index_handler
  | capture_handler
  | stream_handler
  | flash_handler
deriving DecidableEq

structure httpd_uri_t where
  uri : String
  method : http_method
  handler : Handler
  user_ctx : Option Nat
deriving DecidableEq

/-- The two global handles `camera_httpd` and `stream_httpd`, as the target of
`httpd_start(&camera_httpd, ..)` and `httpd_start(&stream_httpd, ..)`. -/
inductive Listener where
  | camera_httpd
  | stream_httpd
deriving DecidableEq

/-! ## External calls and the trace -/

/-- The external functions that the handlers call. -/
inductive Fn where
  | esp_camera_fb_get
  | esp_camera_fb_return
  | Serial_println
  | Serial_printf
  | digitalWrite
  | httpd_resp_set_type
  | httpd_resp_set_hdr
  | httpd_resp_send
  | httpd_resp_send_chunk
  | httpd_resp_send_500
  | httpd_start
  | httpd_register_uri_handler
deriving DecidableEq

/-- One external call with its arguments and, where the function returns a
value, the value it returned. -/
inductive Call where
  | esp_camera_fb_get (fb : Option camera_fb_t)
  | esp_camera_fb_return (fb : camera_fb_t)
  | Serial_println (msg : String)
  | Serial_printf (out : String)
  | digitalWrite (pin : Nat) (val : Bool)
  | httpd_resp_set_type (ctype : String) (r : esp_err_t)
  | httpd_resp_set_hdr (field : String) (value : String) (r : esp_err_t)
  | httpd_resp_send (body : List byte) (r : esp_err_t)
  | httpd_resp_send_chunk (data : List byte) (r : esp_err_t)
  | httpd_resp_send_500 (r : esp_err_t)
  | httpd_start (handle : Listener) (config : httpd_config_t) (r : esp_err_t)
  | httpd_register_uri_handler (handle : httpd_handle_t) (uri : httpd_uri_t) (r : esp_err_t)
deriving DecidableEq

/-- The function that a call is a call of. -/
def Call.fn : Call → Fn
  | .esp_camera_fb_get _ => .esp_camera_fb_get
  | .esp_camera_fb_return _ => .esp_camera_fb_return
  | .Serial_println _ => .Serial_println
  | .Serial_printf _ => .Serial_printf
  | .digitalWrite _ _ => .digitalWrite
  | .httpd_resp_set_type _ _ => .httpd_resp_set_type
  | .httpd_resp_set_hdr _ _ _ => .httpd_resp_set_hdr
  | .httpd_resp_send _ _ => .httpd_resp_send
  | .httpd_resp_send_chunk _ _ => .httpd_resp_send_chunk
  | .httpd_resp_send_500 _ => .httpd_resp_send_500
  | .httpd_start _ _ _ => .httpd_start
  | .httpd_register_uri_handler _ _ _ => .httpd_register_uri_handler

/-- The program state: the globals of `main.cpp` that the handlers use, and
the trace of the external calls made so far. -/
structure St where
  flashState : Bool
  camera_httpd : httpd_handle_t
  stream_httpd : httpd_handle_t
  trace : List Call
deriving DecidableEq

/-- The outside world.  `esp_camera_fb_get i` is what the `i`-th call of
`esp_camera_fb_get` returns (`none` is `NULL`), `ret f i` is the code that the
`i`-th call of the `esp_err_t` function `f` returns, and `part_buf` is the
memory at the uninitialised local `part_buf` when `stream_handler` is
entered. -/
structure Env where
  esp_camera_fb_get : Nat → Option camera_fb_t
  ret : Fn → Nat → esp_err_t
  part_buf : List byte

/-- Number of calls of `f` made so far. -/
def St.calls (s : St) (f : Fn) : Nat :=
  s.trace.countP (fun c => c.fn == f)

/-- Append one call to the trace. -/
def St.log (s : St) (c : Call) : St :=
  { s with trace := s.trace ++ [c] }

/-! ## C strings and `snprintf` -/

/-- A string literal in memory: its characters followed by a NUL. -/
def c_str (lit : String) : List byte :=
  lit.toList.map Char.toNat ++ [0]

/-- C `strlen`: the number of bytes before the first NUL. -/
def strlen (mem : List byte) : Nat :=
  (mem.takeWhile (fun b => b != 0)).length

def PART_BOUNDARY : String := "123456789000000000000987654321"

def _STREAM_CONTENT_TYPE : String :=
  "multipart/x-mixed-replace;boundary=" ++ PART_BOUNDARY

def _STREAM_BOUNDARY : String :=
  "\r\n--" ++ PART_BOUNDARY ++ "\r\n"

def _STREAM_PART : String :=
  "Content-Type: image/jpeg\r\nContent-Length: %u\r\n\r\n"

/-- The text that `printf` produces for a format whose only conversions are
`%u`, all given the argument `arg`: `%u` prints its argument, an
`unsigned int` of 32 bits, in decimal. -/
def format_u : List Char → Nat → List Char
  | [], _ => []
  | [c], _ => [c]
  | c :: d :: rest, arg =>
    if c = '%' ∧ d = 'u' then Nat.toDigits 10 (arg % 2 ^ 32) ++ format_u rest arg
    else c :: format_u (d :: rest) arg

/-- A character array object: `size` is its `sizeof` in bytes, `mem` is the
memory from its first byte on (the object and what follows it), and
`overflow` says that a store into the object has run past its end. -/
structure char_array where
  size : Nat
  mem : List byte
  overflow : Bool
deriving DecidableEq

/-- The constant `sizeof(char *)` of the ESP32, a 32-bit target. -/
def sizeof_char_ptr : Nat := 4

/-- C `snprintf(dst, size, ..)`, where `out` is the complete formatted text:
at most `size - 1` bytes of `out` and a NUL are stored from the start of
`dst`, and the length of the complete text is returned.  A store of more bytes
than `dst` has is a buffer overflow. -/
def snprintf (dst : char_array) (size : Nat) (out : List byte) : char_array × Nat :=
  if size = 0 then (dst, out.length)
  else
    let w := out.take (size - 1) ++ [0]
    ({ dst with
        mem := w ++ dst.mem.drop w.length,
        overflow := dst.overflow || decide (dst.size < w.length) },
      out.length)

/-- The constant `HTTPD_RESP_USE_STRLEN` of the HTTP server: given as the
length of a response, it stands for the `strlen` of the buffer. -/
def HTTPD_RESP_USE_STRLEN : Int := -1

/-- The conversion of a `size_t` to the `ssize_t` length parameter of
`httpd_resp_send` (32 bits, two's complement). -/
def ssize_t_of (n : Nat) : Int :=
  if n % 2 ^ 32 < 2 ^ 31 then ((n % 2 ^ 32 : Nat) : Int)
  else ((n % 2 ^ 32 : Nat) : Int) - 2 ^ 32

/-- The body that `httpd_resp_send(req, buf, buf_len)` sends: the bytes before
the first NUL when `buf_len` is `HTTPD_RESP_USE_STRLEN`, and otherwise
`buf_len` bytes, the length being used as a `size_t`. -/
def resp_body (buf : List byte) (buf_len : Int) : List byte :=
  if buf_len = HTTPD_RESP_USE_STRLEN then buf.take (strlen buf)
  else buf.take (buf_len % 2 ^ 32).toNat

/-! ## The external functions -/

def esp_camera_fb_get (env : Env) (s : St) : Option camera_fb_t × St :=
  let fb := env.esp_camera_fb_get (s.calls .esp_camera_fb_get)
  (fb, s.log (.esp_camera_fb_get fb))

def esp_camera_fb_return (s : St) (fb : camera_fb_t) : St :=
  s.log (.esp_camera_fb_return fb)

def Serial_println (s : St) (msg : String) : St :=
  s.log (.Serial_println msg)

def Serial_printf (s : St) (out : String) : St :=
  s.log (.Serial_printf out)

def digitalWrite (s : St) (pin : Nat) (val : Bool) : St :=
  s.log (.digitalWrite pin val)

def httpd_resp_set_type (env : Env) (s : St) (ctype : String) : esp_err_t × St :=
  let r := env.ret .httpd_resp_set_type (s.calls .httpd_resp_set_type)
  (r, s.log (.httpd_resp_set_type ctype r))

def httpd_resp_set_hdr (env : Env) (s : St) (field value : String) : esp_err_t × St :=
  let r := env.ret .httpd_resp_set_hdr (s.calls .httpd_resp_set_hdr)
  (r, s.log (.httpd_resp_set_hdr field value r))

/-- The call `httpd_resp_send(req, buf, buf_len)`; the trace records the body
that is sent. -/
def httpd_resp_send (env : Env) (s : St) (buf : List byte) (buf_len : Int) :
    esp_err_t × St :=
  let r := env.ret .httpd_resp_send (s.calls .httpd_resp_send)
  (r, s.log (.httpd_resp_send (resp_body buf buf_len) r))

/-- The call `httpd_resp_send_chunk(req, buf, len)` with the byte count `len`
that `stream_handler` passes; the trace records the `len` bytes at `buf`. -/
def httpd_resp_send_chunk (env : Env) (s : St) (buf : List byte) (len : Nat) :
    esp_err_t × St :=
  let r := env.ret .httpd_resp_send_chunk (s.calls .httpd_resp_send_chunk)
  (r, s.log (.httpd_resp_send_chunk (buf.take len) r))

def httpd_resp_send_500 (env : Env) (s : St) : esp_err_t × St :=
  let r := env.ret .httpd_resp_send_500 (s.calls .httpd_resp_send_500)
  (r, s.log (.httpd_resp_send_500 r))

/-- The call `httpd_start(&h, &config)`: on `ESP_OK` the new instance is
stored in the global `h`, otherwise `h` is left as it was. -/
def httpd_start (env : Env) (s : St) (h : Listener) (config : httpd_config_t) :
    esp_err_t × St :=
  let i := s.calls .httpd_start
  let r := env.ret .httpd_start i
  let s := s.log (.httpd_start h config r)
  if r = ESP_OK then
    match h with
    | .camera_httpd => (r, { s with camera_httpd := some i })
    | .stream_httpd => (r, { s with stream_httpd := some i })
  else (r, s)

def httpd_register_uri_handler (env : Env) (s : St) (handle : httpd_handle_t)
    (uri : httpd_uri_t) : esp_err_t × St :=
  let r := env.ret .httpd_register_uri_handler (s.calls .httpd_register_uri_handler)
  (r, s.log (.httpd_register_uri_handler handle uri r))

/-! ## The handlers -/

/-- The handler `capture_handler` of `main.cpp`. -/
def capture_handler (env : Env) (s : St) : esp_err_t × St :=
  let (fb, s) := esp_camera_fb_get env s
  match fb with
  | none =>
    let s := Serial_println s "Camera capture failed"
    let (_, s) := httpd_resp_send_500 env s
    (ESP_FAIL, s)
  | some fb =>
    let (_, s) := httpd_resp_set_type env s "image/jpeg"
    let (_, s) := httpd_resp_set_hdr env s "Content-Disposition" "inline; filename=capture.jpg"
    let (res, s) := httpd_resp_send env s fb.buf (ssize_t_of fb.len)
    let s := esp_camera_fb_return s fb
    (res, s)

/-- The local `char *part_buf[64]` of `stream_handler` on entry: an array of
64 pointers, so `64 * sizeof(char *)` bytes, not initialised. -/
def part_buf_local (env : Env) : char_array :=
  { size := 64 * sizeof_char_ptr, mem := env.part_buf, overflow := false }

/-- One pass through the body of the `while (true)` of `stream_handler`, up to
the test `res != ESP_OK`: the value of `res`, the array `part_buf` and the
state at that point. -/
def stream_body (env : Env) (part_buf : char_array) (s : St) :
    esp_err_t × char_array × St :=
  let (fb, s) := esp_camera_fb_get env s
  match fb with
  | none =>
    let s := Serial_println s "Camera capture failed"
    (ESP_FAIL, part_buf, s)
  | some fb =>
    let (part_buf, hlen) :=
      snprintf part_buf 64 ((format_u _STREAM_PART.toList fb.len).map Char.toNat)
    let (res, s) :=
      httpd_resp_send_chunk env s (c_str _STREAM_BOUNDARY) (strlen (c_str _STREAM_BOUNDARY))
    let (res, s) :=
      if res = ESP_OK then httpd_resp_send_chunk env s part_buf.mem hlen else (res, s)
    let (res, s) :=
      if res = ESP_OK then httpd_resp_send_chunk env s fb.buf fb.len else (res, s)
    let s := esp_camera_fb_return s fb
    (res, part_buf, s)

/-- The `while (true)` loop of `stream_handler`, for at most `fuel`
iterations: `some res` when the loop was left through `break` with that
`res`, `none` when it is still running after `fuel` iterations; with it the
array `part_buf` and the state at that point. -/
def stream_loop (env : Env) : Nat → char_array → St → Option esp_err_t × char_array × St
  | 0, part_buf, s => (none, part_buf, s)
  | fuel + 1, part_buf, s =>
    match stream_body env part_buf s with
    | (res, part_buf, s) =>
      if res ≠ ESP_OK then (some res, part_buf, s) else stream_loop env fuel part_buf s

/-- The body of `stream_handler`, its loop bounded by `fuel` iterations: the
result, the local `part_buf` and the state at the end. -/
def stream_handler_run (env : Env) (fuel : Nat) (s : St) :
    Option esp_err_t × char_array × St :=
  let part_buf := part_buf_local env
  let (res, s) := httpd_resp_set_type env s _STREAM_CONTENT_TYPE
  if res ≠ ESP_OK then (some res, part_buf, s)
  else stream_loop env fuel part_buf s

/-- The handler `stream_handler` of `main.cpp`, its loop bounded by `fuel`
iterations: what it returns and the state it leaves; its local `part_buf`
ends with it. -/
def stream_handler (env : Env) (fuel : Nat) (s : St) : Option esp_err_t × St :=
  ((stream_handler_run env fuel s).1, (stream_handler_run env fuel s).2.2)

/-- The result and the state of `stream_loop`, without the array. -/
def stream_loop_result (env : Env) (fuel : Nat) (part_buf : char_array) (s : St) :
    Option esp_err_t × St :=
  ((stream_loop env fuel part_buf s).1, (stream_loop env fuel part_buf s).2.2)

/-- The handler `flash_handler` of `main.cpp`. -/
def flash_handler (env : Env) (s : St) : esp_err_t × St :=
  let s := { s with flashState := !s.flashState }
  let s := digitalWrite s LED_GPIO_NUM s.flashState
  let (_, s) := httpd_resp_set_type env s "text/plain"
  let lit := c_str (if s.flashState then "Flash ON" else "Flash OFF")
  httpd_resp_send env s lit HTTPD_RESP_USE_STRLEN

/-! ## Server bootstrap -/

def index_uri : httpd_uri_t :=
  { uri := "/", method := .HTTP_GET, handler := .index_handler, user_ctx := none }

def capture_uri : httpd_uri_t :=
  { uri := "/capture", method := .HTTP_GET, handler := .capture_handler, user_ctx := none }

def flash_uri : httpd_uri_t :=
  { uri := "/flash", method := .HTTP_GET, handler := .flash_handler, user_ctx := none }

def stream_uri : httpd_uri_t :=
  { uri := "/stream", method := .HTTP_GET, handler := .stream_handler, user_ctx := none }

/-- The body of `startCameraServer`, with the base port, the value that line
175 assigns to `config.server_port`, as the parameter `base_port` (a
`uint16_t`).  `default_config` is the value that the SDK gives by
`HTTPD_DEFAULT_CONFIG()`; `+= 1` on the `uint16_t` ports wraps at `2 ^ 16`. -/
def startCameraServer_on (env : Env) (default_config : httpd_config_t) (base_port : Nat)
    (s : St) : St :=
  let config := default_config
  let config := { config with server_port := base_port }
  let s := Serial_printf s ("Starting web server on port: \x27" ++ toString config.server_port ++ "\x27\n")
  let (r, s) := httpd_start env s .camera_httpd config
  let s :=
    if r = ESP_OK then
      let (_, s) := httpd_register_uri_handler env s s.camera_httpd index_uri
      let (_, s) := httpd_register_uri_handler env s s.camera_httpd capture_uri
      let (_, s) := httpd_register_uri_handler env s s.camera_httpd flash_uri
      s
    else s
  let config := { config with server_port := (config.server_port + 1) % 2 ^ 16 }
  let config := { config with ctrl_port := (config.ctrl_port + 1) % 2 ^ 16 }
  let s := Serial_printf s ("Starting stream server on port: \x27" ++ toString config.server_port ++ "\x27\n")
  let (r, s) := httpd_start env s .stream_httpd config
  if r = ESP_OK then
    let (_, s) := httpd_register_uri_handler env s s.stream_httpd stream_uri
    s
  else s

/-- The function `startCameraServer` of `main.cpp`: line 175 is
`config.server_port = 80`. -/
def startCameraServer (env : Env) (default_config : httpd_config_t) (s : St) : St :=
  startCameraServer_on env default_config 80 s

/-! ## Observations on a trace -/

/-- The state after the calls `cs` were made, in this order. -/
def St.logs (s : St) (cs : List Call) : St :=
  { s with trace := s.trace ++ cs }

/-- Number of frame buffers acquired: calls of `esp_camera_fb_get` that
returned a buffer. -/
def acquired (tr : List Call) : Nat :=
  tr.countP (fun c => match c with
    | .esp_camera_fb_get (some _) => true
    | _ => false)

/-- Number of frame buffers released: calls of `esp_camera_fb_return`. -/
def released (tr : List Call) : Nat :=
  tr.countP (fun c => c.fn == .esp_camera_fb_return)

/-- One step of the ownership check, `held` being the buffer that the handler
holds: an acquire is allowed only while nothing is held, and a release only
of the buffer that is held.  `none` is a violation. -/
def fb_step (held : Option camera_fb_t) : Call → Option (Option camera_fb_t)
  | .esp_camera_fb_get fb => if held.isSome then none else some fb
  | .esp_camera_fb_return fb => if held = some fb then some none else none
  | _ => some held

/-- The ownership check along a trace: the buffer held at the end, or `none`
after a violation. -/
def fb_run (held : Option camera_fb_t) : List Call → Option (Option camera_fb_t)
  | [] => some held
  | c :: cs =>
    match fb_step held c with
    | none => none
    | some h => fb_run h cs

/-- All bytes passed to `httpd_resp_send_chunk`, in order. -/
def passed : List Call → List byte
  | [] => []
  | .httpd_resp_send_chunk data _ :: cs => data ++ passed cs
  | _ :: cs => passed cs

/-- The bytes of the calls of `httpd_resp_send_chunk` that returned `ESP_OK`,
in order. -/
def written : List Call → List byte
  | [] => []
  | .httpd_resp_send_chunk data r :: cs =>
    if r = ESP_OK then data ++ written cs else written cs
  | _ :: cs => written cs

/-- Calls whose result `stream_handler` tests. -/
def Call.tested : Call → Bool
  | .esp_camera_fb_get _ => true
  | .httpd_resp_set_type _ _ => true
  | .httpd_resp_send_chunk _ _ => true
  | _ => false

/-- The last call of the trace whose result `stream_handler` tests. -/
def last_tested (tr : List Call) : Option Call :=
  (tr.filter Call.tested).getLast?

/-- A failed acquisition or a failed write to the client. -/
def Call.acquire_or_write_failed : Call → Bool
  | .esp_camera_fb_get none => true
  | .httpd_resp_send_chunk _ r => r != ESP_OK
  | _ => false

/-- A failed `httpd_resp_set_type`. -/
def Call.set_type_failed : Call → Bool
  | .httpd_resp_set_type _ r => r != ESP_OK
  | _ => false

/-- The three blocks of one part of the stream, as `stream_handler` passes
them to `httpd_resp_send_chunk`: boundary, header and frame bytes. -/
def stream_part (fb : camera_fb_t) : List (List byte) :=
  [ (c_str _STREAM_BOUNDARY).take (strlen (c_str _STREAM_BOUNDARY)),
    (format_u _STREAM_PART.toList fb.len).map Char.toNat,
    fb.buf.take fb.len ]

/-- The calls of a loop iteration in which the acquire and the three writes
succeed. -/
def ok_calls (fb : camera_fb_t) : List Call :=
  [Call.esp_camera_fb_get (some fb)]
    ++ (stream_part fb).map (fun d => Call.httpd_resp_send_chunk d ESP_OK)
    ++ [Call.esp_camera_fb_return fb]

/-- The calls of a loop iteration in which the acquire succeeds, the first `j`
writes succeed and the next write returns `e`. -/
def failed_calls (fb : camera_fb_t) (j : Nat) (e : esp_err_t) : List Call :=
  [Call.esp_camera_fb_get (some fb)]
    ++ ((stream_part fb).take j).map (fun d => Call.httpd_resp_send_chunk d ESP_OK)
    ++ [Call.httpd_resp_send_chunk ((stream_part fb).getD j []) e,
        Call.esp_camera_fb_return fb]

/-! ## The wire format in the words of the specification -/

/-- The boundary line of the specification. -/
def spec_boundary : List byte :=
  "\r\n--123456789000000000000987654321\r\n".toList.map Char.toNat

/-- The part header of the specification for a payload of `len` bytes. -/
def spec_header (len : Nat) : List byte :=
  ("Content-Type: image/jpeg\r\nContent-Length: " ++ toString len ++ "\r\n\r\n").toList.map
    Char.toNat

/-- The stream of the specification for a sequence of frames. -/
def spec_stream (frames : List (List byte)) : List byte :=
  (frames.map (fun fr => spec_boundary ++ spec_header fr.length ++ fr)).flatten

/-- A trace in which every acquired buffer is released exactly once, before
the next acquire and before the end, and nothing else is released. -/
def fb_balanced (evs : List Call) : Prop :=
  fb_run none evs = some none ∧ acquired evs = released evs

/-- The calls of `httpd_start` in a trace: the global handle and the
configuration of each, in order. -/
def start_calls (tr : List Call) : List (Listener × httpd_config_t) :=
  tr.filterMap (fun c => match c with
    | .httpd_start h config _ => some (h, config)
    | _ => none)

/-- The routes registered in a trace: server handle and route of each call of
`httpd_register_uri_handler`, in order. -/
def routes (tr : List Call) : List (httpd_handle_t × httpd_uri_t) :=
  tr.filterMap (fun c => match c with
    | .httpd_register_uri_handler h uri _ => some (h, uri)
    | _ => none)

/-- The serial output of a trace: the text of each `Serial.println` and
`Serial.printf`, in order. -/
def serial (tr : List Call) : List String :=
  tr.filterMap (fun c => match c with
    | .Serial_println msg => some msg
    | .Serial_printf out => some out
    | _ => none)

/-- The calls that `startCameraServer_on` makes from the state `s`, written
out: `r1` and `r2` are the results of the two calls of `httpd_start`. -/
def bootstrap_calls (env : Env) (cfg : httpd_config_t) (base_port : Nat) (s : St) :
    List Call :=
  let i := s.calls .httpd_start
  let k := s.calls .httpd_register_uri_handler
  let r1 := env.ret .httpd_start i
  let r2 := env.ret .httpd_start (i + 1)
  let q := env.ret .httpd_register_uri_handler
  [Call.Serial_printf ("Starting web server on port: \x27" ++ toString base_port ++ "\x27\n"),
   Call.httpd_start .camera_httpd { cfg with server_port := base_port } r1]
  ++ (if r1 = ESP_OK then
        [Call.httpd_register_uri_handler (some i) index_uri (q k),
         Call.httpd_register_uri_handler (some i) capture_uri (q (k + 1)),
         Call.httpd_register_uri_handler (some i) flash_uri (q (k + 2))]
      else [])
  ++ [Call.Serial_printf
        ("Starting stream server on port: \x27" ++ toString ((base_port + 1) % 2 ^ 16)
          ++ "\x27\n"),
      Call.httpd_start .stream_httpd
        { server_port := (base_port + 1) % 2 ^ 16,
          ctrl_port := (cfg.ctrl_port + 1) % 2 ^ 16 } r2]
  ++ (if r2 = ESP_OK then
        [Call.httpd_register_uri_handler (some (i + 1)) stream_uri
          (q (if r1 = ESP_OK then k + 3 else k))]
      else [])

/-! ## Concrete states and environments -/

/-- The state at start-up: flash off, both handles `NULL`, no call made. -/
def St0 : St :=
  { flashState := false, camera_httpd := none, stream_httpd := none, trace := [] }

/-- A two-byte frame. -/
def fb_a : camera_fb_t := { buf := [255, 216], len := 2 }

/-- A three-byte frame in memory of four bytes. -/
def fb_b : camera_fb_t := { buf := [255, 216, 255, 0], len := 3 }

/-- A one-byte frame. -/
def fb_c : camera_fb_t := { buf := [9], len := 1 }

/-- Every call succeeds; the camera delivers `fb_a`, `fb_b`, then `fb_c` for ever. -/
def env_ok : Env :=
  { esp_camera_fb_get := fun i => if i = 0 then some fb_a else if i = 1 then some fb_b
      else some fb_c,
    ret := fun _ _ => ESP_OK,
    part_buf := List.replicate 256 170 }

/-- As `env_ok`, but the camera delivers no frame at all. -/
def env_no_frame : Env :=
  { env_ok with esp_camera_fb_get := fun _ => none }

/-- As `env_ok`, but the header write of the third frame (write number 7,
counted from 0) returns the error code `32775`. -/
def env_write_fails : Env :=
  { env_ok with
    ret := fun f i => if f = .httpd_resp_send_chunk ∧ i = 7 then 32775 else ESP_OK }

/-- As `env_ok`, but `httpd_resp_set_type` fails. -/
def env_set_type_fails : Env :=
  { env_ok with ret := fun f _ => if f = .httpd_resp_set_type then ESP_FAIL else ESP_OK }

/-- As `env_ok`, but the second `httpd_start`, that of the stream listener, fails. -/
def env_stream_start_fails : Env :=
  { env_ok with ret := fun f i => if f = .httpd_start ∧ i = 1 then ESP_FAIL else ESP_OK }

/-! ## Bookkeeping lemmas -/

@[simp] theorem Call.fn_fb_get (fb : Option camera_fb_t) :
    (Call.esp_camera_fb_get fb).fn = .esp_camera_fb_get := rfl

@[simp] theorem Call.fn_fb_return (fb : camera_fb_t) :
    (Call.esp_camera_fb_return fb).fn = .esp_camera_fb_return := rfl

@[simp] theorem Call.fn_println (msg : String) :
    (Call.Serial_println msg).fn = .Serial_println := rfl

@[simp] theorem Call.fn_printf (out : String) :
    (Call.Serial_printf out).fn = .Serial_printf := rfl

@[simp] theorem Call.fn_digitalWrite (pin : Nat) (val : Bool) :
    (Call.digitalWrite pin val).fn = .digitalWrite := rfl

@[simp] theorem Call.fn_set_type (ctype : String) (r : esp_err_t) :
    (Call.httpd_resp_set_type ctype r).fn = .httpd_resp_set_type := rfl

@[simp] theorem Call.fn_set_hdr (field value : String) (r : esp_err_t) :
    (Call.httpd_resp_set_hdr field value r).fn = .httpd_resp_set_hdr := rfl

@[simp] theorem Call.fn_send (body : List byte) (r : esp_err_t) :
    (Call.httpd_resp_send body r).fn = .httpd_resp_send := rfl

@[simp] theorem Call.fn_send_chunk (data : List byte) (r : esp_err_t) :
    (Call.httpd_resp_send_chunk data r).fn = .httpd_resp_send_chunk := rfl

@[simp] theorem Call.fn_send_500 (r : esp_err_t) :
    (Call.httpd_resp_send_500 r).fn = .httpd_resp_send_500 := rfl

@[simp] theorem Call.fn_start (h : Listener) (config : httpd_config_t) (r : esp_err_t) :
    (Call.httpd_start h config r).fn = .httpd_start := rfl

@[simp] theorem Call.fn_register (h : httpd_handle_t) (uri : httpd_uri_t) (r : esp_err_t) :
    (Call.httpd_register_uri_handler h uri r).fn = .httpd_register_uri_handler := rfl

@[simp] theorem St.log_eq_logs (s : St) (c : Call) : s.log c = s.logs [c] := rfl

@[simp] theorem St.logs_logs (s : St) (a b : List Call) :
    (s.logs a).logs b = s.logs (a ++ b) := by
  simp [St.logs]

@[simp] theorem St.logs_trace (s : St) (cs : List Call) :
    (s.logs cs).trace = s.trace ++ cs := rfl

@[simp] theorem St.logs_flashState (s : St) (cs : List Call) :
    (s.logs cs).flashState = s.flashState := rfl

@[simp] theorem St.logs_camera_httpd (s : St) (cs : List Call) :
    (s.logs cs).camera_httpd = s.camera_httpd := rfl

@[simp] theorem St.logs_stream_httpd (s : St) (cs : List Call) :
    (s.logs cs).stream_httpd = s.stream_httpd := rfl

@[simp] theorem St.calls_logs (s : St) (cs : List Call) (f : Fn) :
    (s.logs cs).calls f = s.calls f + cs.countP (fun c => c.fn == f) := by
  simp [St.calls, St.logs, List.countP_append]

theorem St.logs_nil (s : St) : s.logs [] = s := by
  simp [St.logs]

theorem acquired_append (a b : List Call) : acquired (a ++ b) = acquired a + acquired b := by
  simp [acquired, List.countP_append]

theorem released_append (a b : List Call) : released (a ++ b) = released a + released b := by
  simp [released, List.countP_append]

theorem fb_run_append (a b : List Call) (h : Option camera_fb_t) :
    fb_run h (a ++ b) = (fb_run h a).bind (fun h1 => fb_run h1 b) := by
  induction a generalizing h with
  | nil => simp [fb_run]
  | cons c cs ih =>
    simp only [List.cons_append, fb_run]
    cases fb_step h c with
    | none => simp
    | some h1 => simpa using ih h1

theorem passed_append (a b : List Call) : passed (a ++ b) = passed a ++ passed b := by
  induction a with
  | nil => simp [passed]
  | cons c cs ih => cases c <;> simp [passed, ih]

theorem written_append (a b : List Call) : written (a ++ b) = written a ++ written b := by
  induction a with
  | nil => simp [written]
  | cons c cs ih =>
    cases c <;> simp [written, ih]
    split <;> simp

/-! ## The part header -/

theorem format_STREAM_PART (n : Nat) :
    format_u _STREAM_PART.toList n =
      "Content-Type: image/jpeg\r\nContent-Length: ".toList
        ++ Nat.toDigits 10 (n % 2 ^ 32) ++ "\r\n\r\n".toList := by
  rfl

theorem toDigits_length_le (m : Nat) (h : m < 2 ^ 32) : (Nat.toDigits 10 m).length ≤ 10 := by
  unfold Nat.toDigits
  exact Nat.toDigitsCore_length 10 (by decide) (m + 1) m 10 (by omega) (by decide)

theorem header_length (n : Nat) :
    ((format_u _STREAM_PART.toList n).map Char.toNat).length =
      46 + (Nat.toDigits 10 (n % 2 ^ 32)).length := by
  rw [format_STREAM_PART]
  simp
  omega

theorem header_length_lt (n : Nat) :
    ((format_u _STREAM_PART.toList n).map Char.toNat).length < 64 := by
  have h := toDigits_length_le (n % 2 ^ 32) (Nat.mod_lt _ (by decide))
  rw [header_length]
  omega

theorem snprintf_snd (dst : char_array) (size : Nat) (out : List byte) :
    (snprintf dst size out).2 = out.length := by
  unfold snprintf
  split <;> rfl

theorem snprintf_take (dst : char_array) (size : Nat) (out : List byte)
    (h : out.length < size) :
    (snprintf dst size out).1.mem.take (snprintf dst size out).2 = out := by
  have h0 : size ≠ 0 := by omega
  have h1 : out.take (size - 1) = out := List.take_of_length_le (by omega)
  simp [snprintf, h0, h1, List.take_append_eq_append_take]

/-- A text that is shorter than the limit and than the destination is stored
whole, with its NUL, and nothing else changes. -/
theorem snprintf_fits (dst : char_array) (size : Nat) (out : List byte)
    (h : out.length < size) (hcap : out.length < dst.size) (hov : dst.overflow = false) :
    (snprintf dst size out).1 =
      { size := dst.size, mem := out ++ [0] ++ dst.mem.drop (out.length + 1),
        overflow := false } := by
  have h0 : size ≠ 0 := by omega
  have h1 : out.take (size - 1) = out := List.take_of_length_le (by omega)
  have h2 : ¬ dst.size < out.length + 1 := by omega
  simp [snprintf, h0, h1, hov, h2]

theorem snprintf_size (dst : char_array) (size : Nat) (out : List byte) :
    (snprintf dst size out).1.size = dst.size := by
  unfold snprintf
  split <;> rfl

theorem boundary_chunk :
    (c_str _STREAM_BOUNDARY).take (strlen (c_str _STREAM_BOUNDARY)) = spec_boundary := by
  decide

theorem spec_header_eq (n : Nat) (h : n < 2 ^ 32) :
    (format_u _STREAM_PART.toList n).map Char.toNat = spec_header n := by
  have hd : (toString n).data = Nat.toDigits 10 n := rfl
  rw [format_STREAM_PART, Nat.mod_eq_of_lt h]
  simp [spec_header, hd]

/-! ## One iteration of the stream loop -/

theorem ESP_FAIL_ne_OK : ESP_FAIL ≠ ESP_OK := by decide

theorem header_chunk (pb : char_array) (n : Nat) :
    (snprintf pb 64 ((format_u _STREAM_PART.toList n).map Char.toNat)).1.mem.take
        (snprintf pb 64 ((format_u _STREAM_PART.toList n).map Char.toNat)).2 =
      (format_u _STREAM_PART.toList n).map Char.toNat :=
  snprintf_take pb 64 _ (header_length_lt n)

theorem stream_body_none (env : Env) (pb : char_array) (s : St)
    (h : env.esp_camera_fb_get (s.calls .esp_camera_fb_get) = none) :
    stream_body env pb s =
      (ESP_FAIL, pb,
        s.logs [Call.esp_camera_fb_get none, Call.Serial_println "Camera capture failed"]) := by
  simp [stream_body, esp_camera_fb_get, h, Serial_println]

/-- The acquire succeeds and the write number `j` (of three) is the first that fails. -/
theorem stream_body_failed (env : Env) (pb : char_array) (s : St) (fb : camera_fb_t)
    (j : Nat) (e : esp_err_t)
    (h : env.esp_camera_fb_get (s.calls .esp_camera_fb_get) = some fb)
    (hj : j < 3)
    (hok : ∀ m < j, env.ret .httpd_resp_send_chunk (s.calls .httpd_resp_send_chunk + m) = ESP_OK)
    (he : env.ret .httpd_resp_send_chunk (s.calls .httpd_resp_send_chunk + j) = e)
    (hne : e ≠ ESP_OK) :
    stream_body env pb s =
      (e, (snprintf pb 64 ((format_u _STREAM_PART.toList fb.len).map Char.toNat)).1,
        s.logs (failed_calls fb j e)) := by
  have hc := header_chunk pb fb.len
  simp only [String.toList] at hc
  obtain rfl | rfl | rfl : j = 0 ∨ j = 1 ∨ j = 2 := by omega
  · simp only [Nat.add_zero] at he
    simp [stream_body, esp_camera_fb_get, h, httpd_resp_send_chunk, esp_camera_fb_return, he, hne, failed_calls, stream_part]
  · have h0 := hok 0 (by omega)
    simp only [Nat.add_zero] at h0
    simp [stream_body, esp_camera_fb_get, h, httpd_resp_send_chunk, esp_camera_fb_return, he, hne, h0, hc, failed_calls, stream_part]
  · have h0 := hok 0 (by omega)
    have h1 := hok 1 (by omega)
    simp only [Nat.add_zero] at h0
    simp [stream_body, esp_camera_fb_get, h, httpd_resp_send_chunk, esp_camera_fb_return, he, hne, h0, h1, hc, failed_calls, stream_part]

/-- The acquire and the three writes succeed. -/
theorem stream_body_ok (env : Env) (pb : char_array) (s : St) (fb : camera_fb_t)
    (h : env.esp_camera_fb_get (s.calls .esp_camera_fb_get) = some fb)
    (hok : ∀ m < 3, env.ret .httpd_resp_send_chunk (s.calls .httpd_resp_send_chunk + m) = ESP_OK) :
    stream_body env pb s =
      (ESP_OK, (snprintf pb 64 ((format_u _STREAM_PART.toList fb.len).map Char.toNat)).1,
        s.logs (ok_calls fb)) := by
  have hc := header_chunk pb fb.len
  simp only [String.toList] at hc
  have h0 := hok 0 (by omega)
  have h1 := hok 1 (by omega)
  have h2 := hok 2 (by omega)
  simp only [Nat.add_zero] at h0
  simp [stream_body, esp_camera_fb_get, h, httpd_resp_send_chunk, esp_camera_fb_return, h0, h1, h2, hc, ok_calls, stream_part]

/-- The array after an iteration that acquires `fb`. -/
theorem stream_body_buf_some (env : Env) (pb : char_array) (s : St) (fb : camera_fb_t)
    (h : env.esp_camera_fb_get (s.calls .esp_camera_fb_get) = some fb) :
    (stream_body env pb s).2.1 =
      (snprintf pb 64 ((format_u _STREAM_PART.toList fb.len).map Char.toNat)).1 := by
  simp only [stream_body, esp_camera_fb_get, h]

/-- The array after an iteration. -/
theorem stream_body_cases_buf (env : Env) (pb : char_array) (s : St) :
    (stream_body env pb s).2.1 = pb ∨
    ∃ fb : camera_fb_t, (stream_body env pb s).2.1 =
      (snprintf pb 64 ((format_u _STREAM_PART.toList fb.len).map Char.toNat)).1 := by
  cases h : env.esp_camera_fb_get (s.calls .esp_camera_fb_get) with
  | none =>
    left
    rw [stream_body_none env pb s h]
  | some fb => exact Or.inr ⟨fb, stream_body_buf_some env pb s fb h⟩

/-- Every iteration has one of three shapes. -/
theorem stream_body_cases (env : Env) (pb : char_array) (s : St) :
    (∃ pb1, stream_body env pb s = (ESP_FAIL, pb1,
        s.logs [Call.esp_camera_fb_get none, Call.Serial_println "Camera capture failed"]))
    ∨ (∃ pb1 fb, stream_body env pb s = (ESP_OK, pb1, s.logs (ok_calls fb)))
    ∨ (∃ pb1 fb j e, j < 3 ∧ e ≠ ESP_OK ∧
        stream_body env pb s = (e, pb1, s.logs (failed_calls fb j e))) := by
  cases h : env.esp_camera_fb_get (s.calls .esp_camera_fb_get) with
  | none => exact Or.inl ⟨_, stream_body_none env pb s h⟩
  | some fb =>
    right
    by_cases h0 : env.ret .httpd_resp_send_chunk (s.calls .httpd_resp_send_chunk + 0) = ESP_OK
    · by_cases h1 : env.ret .httpd_resp_send_chunk (s.calls .httpd_resp_send_chunk + 1) = ESP_OK
      · by_cases h2 : env.ret .httpd_resp_send_chunk (s.calls .httpd_resp_send_chunk + 2) = ESP_OK
        · left
          refine ⟨_, fb, stream_body_ok env pb s fb h ?_⟩
          intro m hm
          obtain rfl | rfl | rfl : m = 0 ∨ m = 1 ∨ m = 2 := by omega
          · exact h0
          · exact h1
          · exact h2
        · right
          refine ⟨_, fb, 2, _, by omega, h2, stream_body_failed env pb s fb 2 _ h (by omega) ?_ rfl h2⟩
          intro m hm
          obtain rfl | rfl : m = 0 ∨ m = 1 := by omega
          · exact h0
          · exact h1
      · right
        refine ⟨_, fb, 1, _, by omega, h1, stream_body_failed env pb s fb 1 _ h (by omega) ?_ rfl h1⟩
        intro m hm
        obtain rfl : m = 0 := by omega
        exact h0
    · right
      refine ⟨_, fb, 0, _, by omega, h0, stream_body_failed env pb s fb 0 _ h (by omega) ?_ rfl h0⟩
      intro m hm
      omega

/-! ## The stream loop -/

theorem stream_loop_succ (env : Env) (fuel : Nat) (pb : char_array) (s : St) :
    stream_loop env (fuel + 1) pb s =
      if (stream_body env pb s).1 ≠ ESP_OK then
        (some (stream_body env pb s).1, (stream_body env pb s).2.1, (stream_body env pb s).2.2)
      else stream_loop env fuel (stream_body env pb s).2.1 (stream_body env pb s).2.2 := by
  rfl

theorem calls_get_ok_calls (s : St) (fb : camera_fb_t) :
    (s.logs (ok_calls fb)).calls .esp_camera_fb_get = s.calls .esp_camera_fb_get + 1 := by
  simp [ok_calls, stream_part]

theorem calls_chunk_ok_calls (s : St) (fb : camera_fb_t) :
    (s.logs (ok_calls fb)).calls .httpd_resp_send_chunk
      = s.calls .httpd_resp_send_chunk + 3 := by
  simp [ok_calls, stream_part]

/-- While frames are acquired and written without failure, the loop goes on:
`fbs.length` iterations log the calls of `fbs.length` complete parts. -/
theorem stream_loop_ok_iterations (env : Env) (fbs : List camera_fb_t) :
    ∀ (fuel : Nat) (pb : char_array) (s : St),
      (∀ i < fbs.length,
        env.esp_camera_fb_get (s.calls .esp_camera_fb_get + i) = fbs[i]?) →
      (∀ m < 3 * fbs.length,
        env.ret .httpd_resp_send_chunk (s.calls .httpd_resp_send_chunk + m) = ESP_OK) →
      ∃ pb1, stream_loop env (fbs.length + fuel) pb s =
        stream_loop env fuel pb1 (s.logs (fbs.map ok_calls).flatten) := by
  induction fbs with
  | nil =>
    intro fuel pb s _ _
    exact ⟨pb, by simp [St.logs_nil]⟩
  | cons fb rest ih =>
    intro fuel pb s hget hwr
    have hfb : env.esp_camera_fb_get (s.calls .esp_camera_fb_get) = some fb := by
      simpa using hget 0 (by simp)
    have hok : ∀ m < 3,
        env.ret .httpd_resp_send_chunk (s.calls .httpd_resp_send_chunk + m) = ESP_OK := by
      intro m hm
      exact hwr m (by simp only [List.length_cons]; omega)
    have hb := stream_body_ok env pb s fb hfb hok
    obtain ⟨pb1, h1⟩ := ih fuel
      (snprintf pb 64 ((format_u _STREAM_PART.toList fb.len).map Char.toNat)).1
      (s.logs (ok_calls fb))
      (by
        intro i hi
        rw [calls_get_ok_calls]
        have := hget (i + 1) (by simp only [List.length_cons]; omega)
        simpa [Nat.add_assoc, Nat.add_comm 1 i] using this)
      (by
        intro m hm
        rw [calls_chunk_ok_calls]
        have := hwr (3 + m) (by simp only [List.length_cons]; omega)
        simpa [Nat.add_assoc] using this)
    refine ⟨pb1, ?_⟩
    have hlen : (fb :: rest).length + fuel = (rest.length + fuel) + 1 := by
      simp only [List.length_cons]; omega
    rw [hlen, stream_loop_succ, hb]
    simpa using h1

theorem stream_loop_result_zero (env : Env) (pb : char_array) (s : St) :
    stream_loop_result env 0 pb s = (none, s) := by
  rfl

theorem stream_loop_result_succ (env : Env) (fuel : Nat) (pb : char_array) (s : St) :
    stream_loop_result env (fuel + 1) pb s =
      if (stream_body env pb s).1 ≠ ESP_OK then
        (some (stream_body env pb s).1, (stream_body env pb s).2.2)
      else stream_loop_result env fuel (stream_body env pb s).2.1 (stream_body env pb s).2.2 := by
  unfold stream_loop_result
  rw [stream_loop_succ]
  split <;> rfl

theorem stream_loop_result_ok_iterations (env : Env) (fbs : List camera_fb_t)
    (fuel : Nat) (pb : char_array) (s : St)
    (hget : ∀ i < fbs.length,
      env.esp_camera_fb_get (s.calls .esp_camera_fb_get + i) = fbs[i]?)
    (hwr : ∀ m < 3 * fbs.length,
      env.ret .httpd_resp_send_chunk (s.calls .httpd_resp_send_chunk + m) = ESP_OK) :
    ∃ pb1, stream_loop_result env (fbs.length + fuel) pb s =
      stream_loop_result env fuel pb1 (s.logs (fbs.map ok_calls).flatten) := by
  obtain ⟨pb1, h⟩ := stream_loop_ok_iterations env fbs fuel pb s hget hwr
  exact ⟨pb1, by unfold stream_loop_result; rw [h]⟩

/-- A loop that has returned returns the same with more fuel. -/
theorem stream_loop_mono (env : Env) (fuel extra : Nat) :
    ∀ (pb : char_array) (s : St) (res : esp_err_t) (s1 : St),
      stream_loop_result env fuel pb s = (some res, s1) →
      stream_loop_result env (fuel + extra) pb s = (some res, s1) := by
  induction fuel with
  | zero =>
    intro pb s res s1 h
    simp [stream_loop_result_zero] at h
  | succ n ih =>
    intro pb s res s1 h
    have hn : n + 1 + extra = (n + extra) + 1 := by omega
    rw [hn, stream_loop_result_succ]
    rw [stream_loop_result_succ] at h
    split at h
    · rename_i hne
      rw [if_pos hne]
      exact h
    · rename_i hne
      rw [if_neg hne]
      exact ih _ _ _ _ h

/-! ## Ownership of the frame buffers -/

theorem fb_balanced_nil : fb_balanced [] := by
  simp [fb_balanced, fb_run, acquired, released]

theorem fb_balanced_append (a b : List Call) (ha : fb_balanced a) (hb : fb_balanced b) :
    fb_balanced (a ++ b) := by
  refine ⟨?_, ?_⟩
  · rw [fb_run_append, ha.1]
    simpa using hb.1
  · rw [acquired_append, released_append, ha.2, hb.2]

theorem fb_balanced_ok_calls (fb : camera_fb_t) : fb_balanced (ok_calls fb) := by
  simp [fb_balanced, ok_calls, stream_part, fb_run, fb_step, acquired, released]

theorem fb_balanced_failed_calls (fb : camera_fb_t) (j : Nat) (e : esp_err_t) (hj : j < 3) :
    fb_balanced (failed_calls fb j e) := by
  obtain rfl | rfl | rfl : j = 0 ∨ j = 1 ∨ j = 2 := by omega
  all_goals
    simp [fb_balanced, failed_calls, stream_part, fb_run, fb_step, acquired, released]

theorem fb_balanced_get_none :
    fb_balanced [Call.esp_camera_fb_get none, Call.Serial_println "Camera capture failed"] := by
  simp [fb_balanced, fb_run, fb_step, acquired, released]

theorem stream_loop_balanced (env : Env) (fuel : Nat) :
    ∀ (pb : char_array) (s : St),
      ∃ evs, (stream_loop_result env fuel pb s).2 = s.logs evs ∧ fb_balanced evs := by
  induction fuel with
  | zero =>
    intro pb s
    exact ⟨[], by simp [stream_loop_result_zero, St.logs_nil], fb_balanced_nil⟩
  | succ n ih =>
    intro pb s
    rw [stream_loop_result_succ]
    rcases stream_body_cases env pb s with ⟨pb1, hb⟩ | ⟨pb1, fb, hb⟩ | ⟨pb1, fb, j, e, hj, hne, hb⟩
    · rw [hb]
      simp only [if_pos ESP_FAIL_ne_OK]
      exact ⟨_, rfl, fb_balanced_get_none⟩
    · rw [hb]
      simp only [ne_eq, not_true_eq_false, if_false]
      obtain ⟨evs, h1, h2⟩ := ih pb1 (s.logs (ok_calls fb))
      exact ⟨ok_calls fb ++ evs, by simpa using h1,
        fb_balanced_append _ _ (fb_balanced_ok_calls fb) h2⟩
    · rw [hb]
      simp only [if_pos hne]
      exact ⟨_, rfl, fb_balanced_failed_calls fb j e hj⟩

theorem last_tested_append_of_some (a b : List Call) (c : Call)
    (h : last_tested b = some c) : last_tested (a ++ b) = some c := by
  unfold last_tested at *
  rw [List.filter_append, List.getLast?_append, h]
  rfl

theorem last_tested_failed_calls (fb : camera_fb_t) (j : Nat) (e : esp_err_t) :
    last_tested (failed_calls fb j e) =
      some (Call.httpd_resp_send_chunk ((stream_part fb).getD j []) e) := by
  have h : failed_calls fb j e =
      ([Call.esp_camera_fb_get (some fb)]
        ++ ((stream_part fb).take j).map (fun d => Call.httpd_resp_send_chunk d ESP_OK))
      ++ [Call.httpd_resp_send_chunk ((stream_part fb).getD j []) e,
          Call.esp_camera_fb_return fb] := by
    simp [failed_calls]
  rw [h]
  apply last_tested_append_of_some
  simp [last_tested, Call.tested]

theorem stream_loop_exit (env : Env) (fuel : Nat) :
    ∀ (pb : char_array) (s : St) (res : esp_err_t) (s1 : St),
      stream_loop_result env fuel pb s = (some res, s1) →
      res ≠ ESP_OK ∧ ∃ evs c, s1 = s.logs evs ∧ last_tested evs = some c ∧
        c.acquire_or_write_failed = true := by
  induction fuel with
  | zero =>
    intro pb s res s1 h
    simp [stream_loop_result_zero] at h
  | succ n ih =>
    intro pb s res s1 h
    rw [stream_loop_result_succ] at h
    rcases stream_body_cases env pb s with ⟨pb1, hb⟩ | ⟨pb1, fb, hb⟩ | ⟨pb1, fb, j, e, hj, hne, hb⟩
    · rw [hb] at h
      simp only [if_pos ESP_FAIL_ne_OK, Prod.mk.injEq, Option.some.injEq] at h
      obtain ⟨rfl, rfl⟩ := h
      exact ⟨ESP_FAIL_ne_OK, _, Call.esp_camera_fb_get none, rfl,
        by simp [last_tested, Call.tested], rfl⟩
    · rw [hb] at h
      simp only [ne_eq, not_true_eq_false, if_false] at h
      obtain ⟨hr, evs, c, h1, h2, h3⟩ := ih _ _ _ _ h
      exact ⟨hr, ok_calls fb ++ evs, c, by simp [h1],
        last_tested_append_of_some _ _ _ h2, h3⟩
    · rw [hb] at h
      simp only [if_pos hne, Prod.mk.injEq, Option.some.injEq] at h
      obtain ⟨rfl, rfl⟩ := h
      exact ⟨hne, _, _, rfl, last_tested_failed_calls fb j e,
        by simpa [Call.acquire_or_write_failed] using hne⟩

theorem stream_handler_eq (env : Env) (fuel : Nat) (s : St) :
    stream_handler env fuel s =
      if env.ret .httpd_resp_set_type (s.calls .httpd_resp_set_type) ≠ ESP_OK then
        (some (env.ret .httpd_resp_set_type (s.calls .httpd_resp_set_type)),
          s.logs [Call.httpd_resp_set_type _STREAM_CONTENT_TYPE
            (env.ret .httpd_resp_set_type (s.calls .httpd_resp_set_type))])
      else
        stream_loop_result env fuel (part_buf_local env)
          (s.logs [Call.httpd_resp_set_type _STREAM_CONTENT_TYPE
            (env.ret .httpd_resp_set_type (s.calls .httpd_resp_set_type))]) := by
  unfold stream_handler stream_handler_run stream_loop_result
  simp only [httpd_resp_set_type, St.log_eq_logs]
  split <;> rfl

theorem calls_after_set_type (s : St) (ct : String) (r : esp_err_t) :
    (s.logs [Call.httpd_resp_set_type ct r]).calls .esp_camera_fb_get
        = s.calls .esp_camera_fb_get ∧
    (s.logs [Call.httpd_resp_set_type ct r]).calls .httpd_resp_send_chunk
        = s.calls .httpd_resp_send_chunk := by
  simp []

theorem passed_ok_calls (fb : camera_fb_t) : passed (ok_calls fb) = (stream_part fb).flatten := by
  simp [ok_calls, stream_part, passed]

theorem written_ok_calls (fb : camera_fb_t) :
    written (ok_calls fb) = (stream_part fb).flatten := by
  simp [ok_calls, stream_part, written]

theorem passed_flatten (l : List (List Call)) :
    passed l.flatten = (l.map passed).flatten := by
  induction l with
  | nil => simp [passed]
  | cons a l ih => simp [passed_append, ih]

theorem written_flatten (l : List (List Call)) :
    written l.flatten = (l.map written).flatten := by
  induction l with
  | nil => simp [written]
  | cons a l ih => simp [written_append, ih]

theorem written_failed_calls (fb : camera_fb_t) (j : Nat) (e : esp_err_t) (hj : j < 3)
    (hne : e ≠ ESP_OK) :
    written (failed_calls fb j e) = ((stream_part fb).take j).flatten := by
  obtain rfl | rfl | rfl : j = 0 ∨ j = 1 ∨ j = 2 := by omega
  all_goals simp [failed_calls, stream_part, written, hne]

theorem stream_part_spec (fb : camera_fb_t) (h1 : fb.len ≤ fb.buf.length)
    (h2 : fb.len < 2 ^ 32) :
    (stream_part fb).flatten =
      spec_boundary ++ spec_header (fb.buf.take fb.len).length ++ fb.buf.take fb.len := by
  have hl : (fb.buf.take fb.len).length = fb.len := by
    simp [List.length_take, h1]
  rw [hl]
  have hh := spec_header_eq fb.len h2
  have hb := boundary_chunk
  simp only [String.toList] at hh
  simp [stream_part, hb, hh]

theorem startCameraServer_on_eq (env : Env) (cfg : httpd_config_t) (base_port : Nat)
    (s : St) :
    startCameraServer_on env cfg base_port s =
      { s.logs (bootstrap_calls env cfg base_port s) with
        camera_httpd :=
          if env.ret .httpd_start (s.calls .httpd_start) = ESP_OK
          then some (s.calls .httpd_start) else s.camera_httpd,
        stream_httpd :=
          if env.ret .httpd_start (s.calls .httpd_start + 1) = ESP_OK
          then some (s.calls .httpd_start + 1) else s.stream_httpd } := by
  by_cases h1 : env.ret .httpd_start (s.calls .httpd_start) = ESP_OK <;>
  by_cases h2 : env.ret .httpd_start (s.calls .httpd_start + 1) = ESP_OK
  all_goals
    simp only [St.calls] at h1 h2
    simp [startCameraServer_on, bootstrap_calls, Serial_printf, httpd_start,
      httpd_register_uri_handler, h1, h2, St.logs, St.log, St.calls,
      List.countP_append, List.countP_cons, -St.log_eq_logs]

theorem bootstrap_calls_obs (env : Env) (cfg : httpd_config_t) (base_port : Nat) (s : St) :
    start_calls (bootstrap_calls env cfg base_port s) =
        [(Listener.camera_httpd, { cfg with server_port := base_port }),
         (Listener.stream_httpd,
           { server_port := (base_port + 1) % 2 ^ 16,
             ctrl_port := (cfg.ctrl_port + 1) % 2 ^ 16 })] ∧
    routes (bootstrap_calls env cfg base_port s) =
        (if env.ret .httpd_start (s.calls .httpd_start) = ESP_OK then
          [(some (s.calls .httpd_start), index_uri),
           (some (s.calls .httpd_start), capture_uri),
           (some (s.calls .httpd_start), flash_uri)]
         else [])
        ++ (if env.ret .httpd_start (s.calls .httpd_start + 1) = ESP_OK then
          [(some (s.calls .httpd_start + 1), stream_uri)]
         else []) ∧
    serial (bootstrap_calls env cfg base_port s) =
        ["Starting web server on port: \x27" ++ toString base_port ++ "\x27\n",
         "Starting stream server on port: \x27" ++ toString ((base_port + 1) % 2 ^ 16)
           ++ "\x27\n"] := by
  by_cases h1 : env.ret .httpd_start (s.calls .httpd_start) = ESP_OK <;>
  by_cases h2 : env.ret .httpd_start (s.calls .httpd_start + 1) = ESP_OK
  all_goals
    simp [bootstrap_calls, start_calls, routes, serial, h1, h2]

theorem serial_80_81 :
    ["Starting web server on port: \x27" ++ toString (80 : Nat) ++ "\x27\n",
     "Starting stream server on port: \x27" ++ toString (((80 : Nat) + 1) % 2 ^ 16)
       ++ "\x27\n"] =
    ["Starting web server on port: \x2780\x27\n",
     "Starting stream server on port: \x2781\x27\n"] := by
  decide

theorem header_length_le (n : Nat) :
    ((format_u _STREAM_PART.toList n).map Char.toNat).length ≤ 56 := by
  have h := toDigits_length_le (n % 2 ^ 32) (Nat.mod_lt _ (by decide))
  rw [header_length]
  omega

/-- The array after an iteration: untouched, or the header of some length
stored by `snprintf` with the limit 64. -/
theorem stream_body_part_buf (env : Env) (pb : char_array) (s : St) :
    (stream_body env pb s).2.1 = pb ∨
    ∃ n, (stream_body env pb s).2.1 =
      (snprintf pb 64 ((format_u _STREAM_PART.toList n).map Char.toNat)).1 := by
  rcases stream_body_cases_buf env pb s with hb | ⟨fb, hb⟩
  · exact Or.inl hb
  · exact Or.inr ⟨fb.len, hb⟩

/-- The array `part_buf` is never overflowed by the loop. -/
theorem stream_loop_part_buf (env : Env) (fuel : Nat) :
    ∀ (pb : char_array) (s : St), pb.overflow = false → 56 < pb.size →
      (stream_loop env fuel pb s).2.1.overflow = false ∧
      (stream_loop env fuel pb s).2.1.size = pb.size := by
  induction fuel with
  | zero =>
    intro pb s hov _
    exact ⟨hov, rfl⟩
  | succ n ih =>
    intro pb s hov hsz
    have hstep : (stream_body env pb s).2.1.overflow = false ∧
        (stream_body env pb s).2.1.size = pb.size := by
      rcases stream_body_part_buf env pb s with h | ⟨m, h⟩
      · rw [h]
        exact ⟨hov, rfl⟩
      · have hle := header_length_le m
        rw [h, snprintf_fits pb 64 _ (by omega) (by omega) hov]
        exact ⟨rfl, rfl⟩
    rw [stream_loop_succ]
    split
    · exact hstep
    · have h := ih (stream_body env pb s).2.1 (stream_body env pb s).2.2 hstep.1
        (by rw [hstep.2]; exact hsz)
      exact ⟨h.1, h.2.trans hstep.2⟩

theorem resp_body_ssize_t_of (buf : List byte) (n : Nat) (h : n < 2 ^ 31) :
    resp_body buf (ssize_t_of n) = buf.take n := by
  have h1 : n % 2 ^ 32 = n := Nat.mod_eq_of_lt (by omega)
  have h2 : ssize_t_of n = (n : Int) := by
    unfold ssize_t_of
    rw [h1, if_pos h]
  have h3 : (n : Int) ≠ HTTPD_RESP_USE_STRLEN := by
    unfold HTTPD_RESP_USE_STRLEN
    omega
  have h4 : ((n : Int) % 2 ^ 32).toNat = n := by
    omega
  rw [h2, resp_body, if_neg h3, h4]

/-! ## The claims -/

/-- C1: in `capture_handler` and in `stream_handler`, whatever the outcomes of
`esp_camera_fb_get` and of the writes, and at whatever point the stream loop
is observed (in particular in every run that returns), the calls made
satisfy the ownership check `fb_run`: every buffer handed out is released
exactly once, before the next acquire and before the end, nothing else is
released, and the number of acquired buffers equals the number of released
ones. -/
theorem C1_frame_buffers_balanced (env : Env) (s : St) (fuel : Nat) :
    (∃ evs, (capture_handler env s).2 = s.logs evs ∧
      fb_run none evs = some none ∧ acquired evs = released evs) ∧
    (∃ evs, (stream_handler env fuel s).2 = s.logs evs ∧
      fb_run none evs = some none ∧ acquired evs = released evs) := by
  constructor
  · cases h : env.esp_camera_fb_get (s.calls .esp_camera_fb_get) with
    | none =>
      refine ⟨[Call.esp_camera_fb_get none, Call.Serial_println "Camera capture failed",
        Call.httpd_resp_send_500 (env.ret .httpd_resp_send_500 (s.calls .httpd_resp_send_500))],
        ?_, ?_, ?_⟩
      · simp [capture_handler, esp_camera_fb_get, h, Serial_println, httpd_resp_send_500]
      · simp [fb_run, fb_step]
      · simp [acquired, released]
    | some fb =>
      refine ⟨[Call.esp_camera_fb_get (some fb),
        Call.httpd_resp_set_type "image/jpeg"
          (env.ret .httpd_resp_set_type (s.calls .httpd_resp_set_type)),
        Call.httpd_resp_set_hdr "Content-Disposition" "inline; filename=capture.jpg"
          (env.ret .httpd_resp_set_hdr (s.calls .httpd_resp_set_hdr)),
        Call.httpd_resp_send (resp_body fb.buf (ssize_t_of fb.len))
          (env.ret .httpd_resp_send (s.calls .httpd_resp_send)),
        Call.esp_camera_fb_return fb], ?_, ?_, ?_⟩
      · simp [capture_handler, esp_camera_fb_get, h, httpd_resp_set_type, httpd_resp_set_hdr,
          httpd_resp_send, esp_camera_fb_return]
      · simp [fb_run, fb_step]
      · simp [acquired, released]
  · rw [stream_handler_eq]
    split
    · exact ⟨_, rfl, by simp [fb_run, fb_step], by simp [acquired, released]⟩
    · obtain ⟨evs, h1, h2, h3⟩ := stream_loop_balanced env fuel (part_buf_local env)
        (s.logs [Call.httpd_resp_set_type _STREAM_CONTENT_TYPE
          (env.ret .httpd_resp_set_type (s.calls .httpd_resp_set_type))])
      refine ⟨_ :: evs, by simpa using h1, ?_, ?_⟩
      · simpa [fb_run, fb_step] using h2
      · simpa [acquired, released] using h3

/-- C2: when `httpd_resp_set_type` succeeds and the frames `fbs` (each with
`len` bytes in memory, `len` a 32-bit value) are acquired and written without
failure, then after `fbs.length` iterations `stream_handler` is still running
and the bytes passed to `httpd_resp_send_chunk` are, in order, the stream of
the specification: boundary, header and frame bytes of each frame. -/
theorem C2_stream_wire_format (env : Env) (s : St) (fbs : List camera_fb_t)
    (hwf : ∀ fb ∈ fbs, fb.len ≤ fb.buf.length ∧ fb.len < 2 ^ 32)
    (htype : env.ret .httpd_resp_set_type (s.calls .httpd_resp_set_type) = ESP_OK)
    (hget : ∀ i < fbs.length,
      env.esp_camera_fb_get (s.calls .esp_camera_fb_get + i) = fbs[i]?)
    (hwr : ∀ m < 3 * fbs.length,
      env.ret .httpd_resp_send_chunk (s.calls .httpd_resp_send_chunk + m) = ESP_OK) :
    ∃ evs, stream_handler env fbs.length s = (none, s.logs evs) ∧
      passed evs = spec_stream (fbs.map (fun fb => fb.buf.take fb.len)) ∧
      written evs = passed evs := by
  have hc := calls_after_set_type s _STREAM_CONTENT_TYPE ESP_OK
  obtain ⟨pb1, h1⟩ := stream_loop_result_ok_iterations env fbs 0 (part_buf_local env)
    (s.logs [Call.httpd_resp_set_type _STREAM_CONTENT_TYPE ESP_OK])
    (by rw [hc.1]; exact hget) (by rw [hc.2]; exact hwr)
  refine ⟨[Call.httpd_resp_set_type _STREAM_CONTENT_TYPE ESP_OK] ++ (fbs.map ok_calls).flatten,
    ?_, ?_, ?_⟩
  · rw [stream_handler_eq, htype]
    simp only [ne_eq, not_true_eq_false, if_false]
    rw [Nat.add_zero] at h1
    rw [h1]
    simp [stream_loop_result_zero]
  · rw [passed_append, passed_flatten]
    simp only [passed, List.nil_append, List.map_map, spec_stream]
    congr 1
    apply List.map_congr_left
    intro fb hfb
    simp only [Function.comp_apply, passed_ok_calls]
    exact stream_part_spec fb (hwf fb hfb).1 (hwf fb hfb).2
  · rw [passed_append, written_append, passed_flatten, written_flatten]
    simp only [passed, written, List.nil_append, List.map_map]
    congr 1

/-- C4: when `esp_camera_fb_get` returns `NULL`, `capture_handler` returns
`ESP_FAIL` and its calls are exactly the failed acquire, the log line and
`httpd_resp_send_500`: no release, no second acquire, no image payload. -/
theorem C4_capture_acquire_failure (env : Env) (s : St)
    (h : env.esp_camera_fb_get (s.calls .esp_camera_fb_get) = none) :
    capture_handler env s =
      (ESP_FAIL,
        s.logs
          [Call.esp_camera_fb_get none,
           Call.Serial_println "Camera capture failed",
           Call.httpd_resp_send_500
             (env.ret .httpd_resp_send_500 (s.calls .httpd_resp_send_500))]) := by
  simp [capture_handler, esp_camera_fb_get, h, Serial_println, httpd_resp_send_500]

/-- C5: when `esp_camera_fb_get` returns a buffer `fb` whose `len` bytes are
in memory and whose `len` fits the `ssize_t` length parameter of
`httpd_resp_send` (`len < 2 ^ 31`), `capture_handler` makes exactly these
calls: the acquire, `httpd_resp_set_type` with `image/jpeg`,
`httpd_resp_set_hdr` with `Content-Disposition` and
`inline; filename=capture.jpg`, `httpd_resp_send` whose body is the first
`len` bytes of the buffer, exactly `len` bytes, and the release of `fb`; it
returns the result of the send, whatever that result is. -/
theorem C5_capture_success (env : Env) (s : St) (fb : camera_fb_t)
    (h : env.esp_camera_fb_get (s.calls .esp_camera_fb_get) = some fb)
    (hmem : fb.len ≤ fb.buf.length)
    (hfit : fb.len < 2 ^ 31) :
    capture_handler env s =
      (env.ret .httpd_resp_send (s.calls .httpd_resp_send),
        s.logs
          [Call.esp_camera_fb_get (some fb),
           Call.httpd_resp_set_type "image/jpeg"
             (env.ret .httpd_resp_set_type (s.calls .httpd_resp_set_type)),
           Call.httpd_resp_set_hdr "Content-Disposition" "inline; filename=capture.jpg"
             (env.ret .httpd_resp_set_hdr (s.calls .httpd_resp_set_hdr)),
           Call.httpd_resp_send (fb.buf.take fb.len)
             (env.ret .httpd_resp_send (s.calls .httpd_resp_send)),
           Call.esp_camera_fb_return fb]) ∧
    (fb.buf.take fb.len).length = fb.len := by
  constructor
  · simp [capture_handler, esp_camera_fb_get, h, httpd_resp_set_type, httpd_resp_set_hdr,
      httpd_resp_send, esp_camera_fb_return, resp_body_ssize_t_of fb.buf fb.len hfit]
  · simp [List.length_take, hmem]

/-- C6: one call of `flash_handler` negates `flashState` and a second call
restores it, for every state and whatever the responses return. -/
theorem C6_flash_toggle (env : Env) (s : St) :
    (flash_handler env s).2.flashState = (!s.flashState) ∧
    (flash_handler env (flash_handler env s).2).2.flashState = s.flashState := by
  simp [flash_handler, digitalWrite, httpd_resp_set_type, httpd_resp_send]

/-- C7: the page listener is started on the base port and the stream
listener on the base port + 1, with the control port increased by one.  The
base port is the value that line 175 assigns to `config.server_port`: for
every base port (8080 is one) the two calls of `httpd_start` are for
`camera_httpd` on that port and for `stream_httpd` on that port + 1;
`startCameraServer` is the case of the base port 80 and starts the listeners
on 80 and 81. -/
theorem C7_listener_ports (env : Env) (cfg : httpd_config_t) (base_port : Nat) (s : St)
    (hb : base_port + 1 < 2 ^ 16) (hc : cfg.ctrl_port + 1 < 2 ^ 16) :
    (∃ evs, (startCameraServer_on env cfg base_port s).trace = s.trace ++ evs ∧
      start_calls evs =
        [(Listener.camera_httpd,
           { server_port := base_port, ctrl_port := cfg.ctrl_port }),
         (Listener.stream_httpd,
           { server_port := base_port + 1, ctrl_port := cfg.ctrl_port + 1 })]) ∧
    startCameraServer env cfg s = startCameraServer_on env cfg 80 s ∧
    (∃ evs, (startCameraServer env cfg s).trace = s.trace ++ evs ∧
      start_calls evs =
        [(Listener.camera_httpd, { server_port := 80, ctrl_port := cfg.ctrl_port }),
         (Listener.stream_httpd,
           { server_port := 81, ctrl_port := cfg.ctrl_port + 1 })]) := by
  have hb1 : (base_port + 1) % 2 ^ 16 = base_port + 1 := Nat.mod_eq_of_lt hb
  have hc1 : (cfg.ctrl_port + 1) % 2 ^ 16 = cfg.ctrl_port + 1 := Nat.mod_eq_of_lt hc
  refine ⟨⟨bootstrap_calls env cfg base_port s, ?_, ?_⟩, rfl,
    ⟨bootstrap_calls env cfg 80 s, ?_, ?_⟩⟩
  · rw [startCameraServer_on_eq]
    rfl
  · rw [(bootstrap_calls_obs env cfg base_port s).1, hb1, hc1]
  · rw [startCameraServer, startCameraServer_on_eq]
    rfl
  · rw [(bootstrap_calls_obs env cfg 80 s).1, hc1]
    rfl

/-- C8 (amended): `stream_handler` returns only with a code other than
`ESP_OK`, and then the last call whose result it tests is a failed
`esp_camera_fb_get`, a failed `httpd_resp_send_chunk`, or the failed
`httpd_resp_set_type` at the start, which is then its only call.  Whenever
the acquire and the three writes of an iteration succeed, the loop goes on
with the next iteration. -/
theorem C8_stream_exit_causes (env : Env) (s : St) (fuel : Nat) :
    (∀ res s1, stream_handler env fuel s = (some res, s1) →
      res ≠ ESP_OK ∧ ∃ evs c, s1 = s.logs evs ∧ last_tested evs = some c ∧
        (c.acquire_or_write_failed = true ∨ (c.set_type_failed = true ∧ evs = [c]))) ∧
    (∀ pb fb, env.esp_camera_fb_get (s.calls .esp_camera_fb_get) = some fb →
      (∀ m < 3,
        env.ret .httpd_resp_send_chunk (s.calls .httpd_resp_send_chunk + m) = ESP_OK) →
      ∃ pb1, stream_loop env (fuel + 1) pb s =
        stream_loop env fuel pb1 (s.logs (ok_calls fb))) := by
  constructor
  · intro res s1 h
    rw [stream_handler_eq] at h
    split at h
    · rename_i hne
      simp only [Prod.mk.injEq, Option.some.injEq] at h
      obtain ⟨rfl, rfl⟩ := h
      refine ⟨hne, _, _, rfl, by simp [last_tested, Call.tested], Or.inr ⟨?_, rfl⟩⟩
      simpa [Call.set_type_failed] using hne
    · obtain ⟨hr, evs, c, h1, h2, h3⟩ := stream_loop_exit env fuel _ _ _ _ h
      exact ⟨hr,
        Call.httpd_resp_set_type _STREAM_CONTENT_TYPE
          (env.ret .httpd_resp_set_type (s.calls .httpd_resp_set_type)) :: evs,
        c, by simp [h1], last_tested_append_of_some [_] evs c h2, Or.inl h3⟩
  · intro pb fb hfb hok
    refine ⟨(snprintf pb 64 ((format_u _STREAM_PART.toList fb.len).map Char.toNat)).1, ?_⟩
    rw [stream_loop_succ, stream_body_ok env pb s fb hfb hok]
    simp

/-- C8, counterexample: when `httpd_resp_set_type` fails, `stream_handler`
returns at once; its only call is the failed `httpd_resp_set_type`, so it
returns although no acquisition and no write has failed. -/
theorem C8_counterexample :
    stream_handler env_set_type_fails 5 St0 =
      (some ESP_FAIL, St0.logs [Call.httpd_resp_set_type _STREAM_CONTENT_TYPE ESP_FAIL]) ∧
    ∀ c ∈ (stream_handler env_set_type_fails 5 St0).2.trace,
      c.acquire_or_write_failed = false := by
  decide

/-- C9 (amended): `startCameraServer` calls `httpd_start` once for each
listener and does not log a failure: its serial output is the two
announcements, whatever the results.  A listener whose start failed gets no
route and its handle is left as it was; the routes `/`, `/capture` and
`/flash` are registered on the page listener exactly when its own start
succeeded, and `/stream` on the stream listener exactly when its own start
succeeded, each independently of the other. -/
theorem C9_listeners_independent (env : Env) (cfg : httpd_config_t) (s : St) :
    ∃ evs,
      startCameraServer env cfg s =
        { s.logs evs with
          camera_httpd :=
            if env.ret .httpd_start (s.calls .httpd_start) = ESP_OK
            then some (s.calls .httpd_start) else s.camera_httpd,
          stream_httpd :=
            if env.ret .httpd_start (s.calls .httpd_start + 1) = ESP_OK
            then some (s.calls .httpd_start + 1) else s.stream_httpd } ∧
      (start_calls evs).map (fun p => p.1) = [Listener.camera_httpd, Listener.stream_httpd] ∧
      routes evs =
        (if env.ret .httpd_start (s.calls .httpd_start) = ESP_OK then
          [(some (s.calls .httpd_start), index_uri),
           (some (s.calls .httpd_start), capture_uri),
           (some (s.calls .httpd_start), flash_uri)]
         else [])
        ++ (if env.ret .httpd_start (s.calls .httpd_start + 1) = ESP_OK then
          [(some (s.calls .httpd_start + 1), stream_uri)]
         else []) ∧
      serial evs =
        ["Starting web server on port: \x2780\x27\n", "Starting stream server on port: \x2781\x27\n"] := by
  obtain ⟨h1, h2, h3⟩ := bootstrap_calls_obs env cfg 80 s
  refine ⟨bootstrap_calls env cfg 80 s, startCameraServer_on_eq env cfg 80 s, ?_, h2,
    h3.trans serial_80_81⟩
  rw [h1]
  rfl

/-- C9, counterexample: when the start of the stream listener fails, the
failed `httpd_start` is the last call that `startCameraServer` makes, and the
serial output is the same as when both listeners start: the failure is not
logged. -/
theorem C9_counterexample :
    (startCameraServer env_stream_start_fails { server_port := 80, ctrl_port := 32768 }
        St0).trace.getLast? =
      some (Call.httpd_start .stream_httpd { server_port := 81, ctrl_port := 32769 } ESP_FAIL) ∧
    serial (startCameraServer env_stream_start_fails { server_port := 80, ctrl_port := 32768 }
        St0).trace =
      serial (startCameraServer env_ok { server_port := 80, ctrl_port := 32768 } St0).trace := by
  decide

/-- C10: in an iteration of `stream_handler` that acquires a frame of length
`n < 2 ^ 32`, with `part_buf` an array of the size of the local of
`stream_handler` that has not been overflowed: the header has 46 bytes plus
the decimal digits of `n`, at most 56 and so below the limit 64 given to
`snprintf`; the array holds the complete header of the specification and a
NUL, its other bytes are as before and it is not overflowed; and when the
boundary write succeeds, the next write sends exactly the header, so `hlen`
is the number of header bytes stored.  In every run of `stream_handler`, to
whatever bound, the local `part_buf` is not overflowed. -/
theorem C10_header_fits (env : Env) (s : St) (pb : char_array) (fb : camera_fb_t)
    (fuel : Nat)
    (hfb : env.esp_camera_fb_get (s.calls .esp_camera_fb_get) = some fb)
    (hn : fb.len < 2 ^ 32)
    (hsize : pb.size = (part_buf_local env).size)
    (hov : pb.overflow = false)
    (h0 : env.ret .httpd_resp_send_chunk (s.calls .httpd_resp_send_chunk) = ESP_OK) :
    (spec_header fb.len).length = 46 + (Nat.toDigits 10 fb.len).length ∧
    (spec_header fb.len).length ≤ 56 ∧
    (stream_body env pb s).2.1 =
      { size := pb.size,
        mem := spec_header fb.len ++ [0] ++ pb.mem.drop ((spec_header fb.len).length + 1),
        overflow := false } ∧
    (stream_body env pb s).2.2.trace.take (s.trace.length + 3) =
      s.trace ++
        [Call.esp_camera_fb_get (some fb),
         Call.httpd_resp_send_chunk spec_boundary ESP_OK,
         Call.httpd_resp_send_chunk (spec_header fb.len)
           (env.ret .httpd_resp_send_chunk (s.calls .httpd_resp_send_chunk + 1))] ∧
    (stream_handler_run env fuel s).2.1.overflow = false ∧
    (stream_handler_run env fuel s).2.1.size = 64 * sizeof_char_ptr := by
  have he := spec_header_eq fb.len hn
  have hl := header_length fb.len
  have hle := header_length_le fb.len
  rw [Nat.mod_eq_of_lt hn] at hl
  have hps : pb.size = 256 := hsize
  have hb := boundary_chunk
  have hc := header_chunk pb fb.len
  rw [he] at hl hle hc
  refine ⟨hl, hle, ?_, ?_, ?_⟩
  · rw [stream_body_buf_some env pb s fb hfb, he,
      snprintf_fits pb 64 _ (by omega) (by omega) hov]
  · have hok0 : ∀ m < 1,
        env.ret .httpd_resp_send_chunk (s.calls .httpd_resp_send_chunk + m) = ESP_OK := by
      intro m hm
      obtain rfl : m = 0 := by omega
      exact h0
    by_cases h1 : env.ret .httpd_resp_send_chunk (s.calls .httpd_resp_send_chunk + 1) = ESP_OK
    · by_cases h2 :
          env.ret .httpd_resp_send_chunk (s.calls .httpd_resp_send_chunk + 2) = ESP_OK
      · rw [stream_body_ok env pb s fb hfb (by
          intro m hm
          obtain rfl | rfl | rfl : m = 0 ∨ m = 1 ∨ m = 2 := by omega
          · exact h0
          · exact h1
          · exact h2)]
        simp only [String.toList] at he
        simp [ok_calls, stream_part, hb, he, h1, List.take_append_eq_append_take]
      · rw [stream_body_failed env pb s fb 2 _ hfb (by omega) (by
          intro m hm
          obtain rfl | rfl : m = 0 ∨ m = 1 := by omega
          · exact h0
          · exact h1) rfl h2]
        simp only [String.toList] at he
        simp [failed_calls, stream_part, hb, he, h1, List.take_append_eq_append_take]
    · rw [stream_body_failed env pb s fb 1 _ hfb (by omega) hok0 rfl h1]
      simp only [String.toList] at he
      simp [failed_calls, stream_part, hb, he, List.take_append_eq_append_take]
  · have h := stream_loop_part_buf env fuel (part_buf_local env)
    unfold stream_handler_run
    simp only [httpd_resp_set_type]
    split
    · exact ⟨rfl, rfl⟩
    · exact h _ rfl (show 56 < 64 * sizeof_char_ptr by decide)

/-- Witness of C2: two frames, all calls succeed. -/
theorem C2_witness :
    ∃ evs, stream_handler env_ok 2 St0 = (none, St0.logs evs) ∧
      passed evs = spec_stream [[255, 216], [255, 216, 255]] ∧
      written evs = passed evs :=
  C2_stream_wire_format env_ok St0 [fb_a, fb_b] (by decide) (by decide) (by decide)
    (by decide)

/-- Witness of C4: the camera delivers no frame. -/
theorem C4_witness :
    capture_handler env_no_frame St0 =
      (ESP_FAIL,
        St0.logs
          [Call.esp_camera_fb_get none,
           Call.Serial_println "Camera capture failed",
           Call.httpd_resp_send_500 ESP_OK]) :=
  C4_capture_acquire_failure env_no_frame St0 (by decide)

/-- Witness of C5: the camera delivers `fb_a`. -/
theorem C5_witness :
    capture_handler env_ok St0 =
      (ESP_OK,
        St0.logs
          [Call.esp_camera_fb_get (some fb_a),
           Call.httpd_resp_set_type "image/jpeg" ESP_OK,
           Call.httpd_resp_set_hdr "Content-Disposition" "inline; filename=capture.jpg" ESP_OK,
           Call.httpd_resp_send [255, 216] ESP_OK,
           Call.esp_camera_fb_return fb_a]) ∧
    ([255, 216] : List byte).length = 2 :=
  C5_capture_success env_ok St0 fb_a (by decide) (by decide) (by decide)

/-- Witness of C7, the case of the specification: with the base port 8080
the listeners are started on 8080 and 8081; `startCameraServer` starts them on
80 and 81. -/
theorem C7_witness :
    (∃ evs, (startCameraServer_on env_ok { server_port := 80, ctrl_port := 32768 } 8080
        St0).trace = St0.trace ++ evs ∧
      start_calls evs =
        [(Listener.camera_httpd, { server_port := 8080, ctrl_port := 32768 }),
         (Listener.stream_httpd, { server_port := 8081, ctrl_port := 32769 })]) ∧
    startCameraServer env_ok { server_port := 80, ctrl_port := 32768 } St0 =
      startCameraServer_on env_ok { server_port := 80, ctrl_port := 32768 } 80 St0 ∧
    (∃ evs, (startCameraServer env_ok { server_port := 80, ctrl_port := 32768 } St0).trace =
        St0.trace ++ evs ∧
      start_calls evs =
        [(Listener.camera_httpd, { server_port := 80, ctrl_port := 32768 }),
         (Listener.stream_httpd, { server_port := 81, ctrl_port := 32769 })]) :=
  C7_listener_ports env_ok { server_port := 80, ctrl_port := 32768 } 8080 St0
    (by decide) (by decide)

/-- Witness of C8: a run that returns because a write failed, and an
iteration that succeeds. -/
theorem C8_witness :
    ((32775 : esp_err_t) ≠ ESP_OK ∧
      ∃ evs c, (stream_handler env_write_fails 10 St0).2 = St0.logs evs ∧
        last_tested evs = some c ∧
        (c.acquire_or_write_failed = true ∨ (c.set_type_failed = true ∧ evs = [c]))) ∧
    (∃ pb1, stream_loop env_ok (10 + 1) (part_buf_local env_ok) St0 =
      stream_loop env_ok 10 pb1 (St0.logs (ok_calls fb_a))) :=
  ⟨(C8_stream_exit_causes env_write_fails St0 10).1 32775
      (stream_handler env_write_fails 10 St0).2 (by decide),
   (C8_stream_exit_causes env_ok St0 10).2 (part_buf_local env_ok) fb_a (by decide)
     (by decide)⟩

/-- Witness of C10: the first iteration of the stream with the frame `fb_a` of
two bytes, whose header has 47 bytes. -/
theorem C10_witness :
    (spec_header fb_a.len).length = 46 + (Nat.toDigits 10 fb_a.len).length ∧
    (spec_header fb_a.len).length ≤ 56 ∧
    (stream_body env_ok (part_buf_local env_ok) St0).2.1 =
      { size := (part_buf_local env_ok).size,
        mem := spec_header fb_a.len ++ [0]
          ++ (part_buf_local env_ok).mem.drop ((spec_header fb_a.len).length + 1),
        overflow := false } ∧
    (stream_body env_ok (part_buf_local env_ok) St0).2.2.trace.take (St0.trace.length + 3) =
      St0.trace ++
        [Call.esp_camera_fb_get (some fb_a),
         Call.httpd_resp_send_chunk spec_boundary ESP_OK,
         Call.httpd_resp_send_chunk (spec_header fb_a.len)
           (env_ok.ret .httpd_resp_send_chunk (St0.calls .httpd_resp_send_chunk + 1))] ∧
    (stream_handler_run env_ok 5 St0).2.1.overflow = false ∧
    (stream_handler_run env_ok 5 St0).2.1.size = 64 * sizeof_char_ptr :=
  C10_header_fits env_ok St0 (part_buf_local env_ok) fb_a 5 (by decide) (by decide) rfl rfl
    (by decide)

end EspCam
